import Mathlib

/-!
Verification of the BIGBALZ background-monitoring core (moonshot / rug
detection, cooldown gating, and the API rate limiter) against its
natural-language specification.

The definitions below are a shallow embedding of the Python source:

* `src/algorithms/moonshot_criteria.py` — tier thresholds;
* `src/algorithms/rug_detection.py` — rug thresholds and `MAX_HISTORICAL_DATA_AGE`;
* `src/monitoring/background_monitor.py` — `_check_moonshot_criteria`,
  `_check_rug_indicators`, `_scan_network_for_moonshots`,
  `_scan_network_for_rugs`, `_broadcast_rug_alert`;
* `src/api/geckoterminal_client.py` — `RateLimiter.acquire`.

Python floats are modelled as exact rationals (`ℚ`), wall-clock time as a
single rational clock (`time.time()` and `datetime.utcnow()` are reads of the
same clock), and Python dicts holding per-pool snapshots as a record type in
which the `volume_1h` key — present only in snapshots appended by the rug
scan — is an `Option`.
-/

/-- One entry of `self.pool_history[pool_id]`: the `pool_data` dict built by
`_scan_network_for_rugs` (which includes a `'volume_1h'` key) or by
`_scan_network_for_moonshots` (which does not; `volume_1h := none`). -/
structure PoolRecord where
  timestamp : ℚ
  price : ℚ
  liquidity : ℚ
  volume_1h : Option ℚ
  symbol : String
  contract : String
deriving DecidableEq

/-- The metrics extracted from a pool's `attributes` dict by the scan loops
and by `_check_moonshot_criteria` (after `safe_float` conversion; the
`api_change_*` fields are the provider-reported
`price_change_percentage.{m1,m5,h1,h24}` values). -/
structure PoolAttrs where
  symbol : String
  contract : String
  price : ℚ
  liquidity : ℚ
  volume_1h : ℚ
  volume_24h : ℚ
  tx_count_24h : ℕ
  market_cap : ℚ
  api_change_1m : ℚ
  api_change_5m : ℚ
  api_change_1h : ℚ
  api_change_24h : ℚ
deriving DecidableEq

/-- One tier-rule dict of `moonshot_criteria.py`. -/
structure MoonshotCriteria where
  min_liquidity : ℚ
  min_price_change : ℚ
  min_volume_24h : ℚ
  min_tx_count_24h : ℕ
  min_market_cap : ℚ
  tier : String
deriving DecidableEq

/-- `MOONSHOT_100X_CRITERIA` from `moonshot_criteria.py`. -/
def MOONSHOT_100X_CRITERIA : MoonshotCriteria :=
  { min_liquidity := 10000, min_price_change := 75, min_volume_24h := 15000,
    min_tx_count_24h := 75, min_market_cap := 50000, tier := "POTENTIAL 100X" }

/-- `MOONSHOT_10X_CRITERIA` from `moonshot_criteria.py`. -/
def MOONSHOT_10X_CRITERIA : MoonshotCriteria :=
  { min_liquidity := 20000, min_price_change := 30, min_volume_24h := 30000,
    min_tx_count_24h := 100, min_market_cap := 100000, tier := "POTENTIAL 10X" }

/-- `MOONSHOT_2X_CRITERIA` from `moonshot_criteria.py`. -/
def MOONSHOT_2X_CRITERIA : MoonshotCriteria :=
  { min_liquidity := 75000, min_price_change := 20, min_volume_24h := 75000,
    min_tx_count_24h := 150, min_market_cap := 500000, tier := "POTENTIAL 2X" }

/-- `MOONSHOT_CRITERIA_LIST` from `moonshot_criteria.py` (evaluation order). -/
def MOONSHOT_CRITERIA_LIST : List MoonshotCriteria :=
  [MOONSHOT_100X_CRITERIA, MOONSHOT_10X_CRITERIA, MOONSHOT_2X_CRITERIA]

/-- `RUG_LIQUIDITY_DRAIN_CRITERIA` from `rug_detection.py`. -/
structure RugLiquidityDrainCriteria where
  min_liquidity_drop_percent : ℚ
  min_initial_liquidity : ℚ
  max_final_liquidity : ℚ
  rug_type : String
deriving DecidableEq

def RUG_LIQUIDITY_DRAIN_CRITERIA : RugLiquidityDrainCriteria :=
  { min_liquidity_drop_percent := 40, min_initial_liquidity := 10000,
    max_final_liquidity := 1000, rug_type := "LIQUIDITY_DRAIN" }

/-- `RUG_PRICE_CRASH_CRITERIA` from `rug_detection.py`. -/
structure RugPriceCrashCriteria where
  min_price_drop_percent : ℚ
  rug_type : String
deriving DecidableEq

def RUG_PRICE_CRASH_CRITERIA : RugPriceCrashCriteria :=
  { min_price_drop_percent := 60, rug_type := "PRICE_CRASH" }

/-- `RUG_VOLUME_DUMP_CRITERIA` from `rug_detection.py`. -/
structure RugVolumeDumpCriteria where
  min_volume_spike_percent : ℚ
  min_price_drop_percent : ℚ
  min_previous_volume : ℚ
  rug_type : String
deriving DecidableEq

def RUG_VOLUME_DUMP_CRITERIA : RugVolumeDumpCriteria :=
  { min_volume_spike_percent := 500, min_price_drop_percent := 50,
    min_previous_volume := 1000, rug_type := "VOLUME_DUMP" }

/-- `MAX_HISTORICAL_DATA_AGE` from `rug_detection.py` (seconds). -/
def MAX_HISTORICAL_DATA_AGE : ℚ := 120

/-- `self.moonshot_cooldown` in `BackgroundMonitor.__init__` (seconds). -/
def moonshot_cooldown : ℚ := 3600

/-- `self.rug_cooldown` in `BackgroundMonitor.__init__` (seconds). -/
def rug_cooldown : ℚ := 3600

/-- `RugAlert` dataclass of `background_monitor.py`. -/
structure RugAlert where
  token_symbol : String
  contract : String
  network : String
  liquidity_drain_percent : ℚ
  price_drop_percent : ℚ
  volume_spike_percent : ℚ
  final_liquidity : ℚ
  final_volume_1h : ℚ
  timestamp : ℚ
  rug_type : String
deriving DecidableEq

/-- `MoonshotAlert` dataclass of `background_monitor.py`. -/
structure MoonshotAlert where
  token_symbol : String
  contract : String
  network : String
  tier : String
  price_change_percent : ℚ
  volume_24h : ℚ
  liquidity : ℚ
  transaction_count : ℕ
  timestamp : ℚ
  price_usd : ℚ
deriving DecidableEq

/-- The "sort newest-first (stable), take the first record with
`timestamp ≤ target`" lookup used by both `_check_rug_indicators` and
`_check_moonshot_criteria`: among records with `timestamp ≤ t` it yields the
one with maximal timestamp, earliest in original order among ties. -/
def nearestBefore : List PoolRecord → ℚ → Option PoolRecord
  | [], _ => none
  | r :: rs, t =>
    match nearestBefore rs t with
    | none => if r.timestamp ≤ t then some r else none
    | some b =>
      if r.timestamp ≤ t then
        (if b.timestamp ≤ r.timestamp then some r else some b)
      else some b

/-- The four lookback windows of `_check_moonshot_criteria`. -/
inductive MoonshotWindow where
  | m1
  | m5
  | h1
  | h24
deriving DecidableEq

/-- The `seconds_ago` value of each window (60, 300, 3600, 86400). -/
def MoonshotWindow.seconds : MoonshotWindow → ℚ
  | .m1 => 60
  | .m5 => 300
  | .h1 => 3600
  | .h24 => 86400

/-- The provider-reported percent-change field for a window
(`price_change_percentage.m1/m5/h1/h24`). -/
def MoonshotWindow.apiChange (p : PoolAttrs) : MoonshotWindow → ℚ
  | .m1 => p.api_change_1m
  | .m5 => p.api_change_5m
  | .h1 => p.api_change_1h
  | .h24 => p.api_change_24h

/-- The per-window price change computed by `_check_moonshot_criteria`.
When `history = some h` (the pool id is present in `self.pool_history`)
the change for a window starts at 0 and is overwritten only if a record
with `timestamp ≤ now − seconds_ago` and positive price exists; the
provider-reported fields are used only when `history = none` (no pool id
or pool id absent from the map). -/
def windowChange (history : Option (List PoolRecord)) (now : ℚ) (p : PoolAttrs)
    (w : MoonshotWindow) : ℚ :=
  match history with
  | none => w.apiChange p
  | some h =>
    match nearestBefore h (now - w.seconds) with
    | none => 0
    | some r => if 0 < r.price then (p.price - r.price) / r.price * 100 else 0

/-- `best_price_change`: starts at 0, scans the four windows in order and
keeps the strictly larger change. -/
def bestMove (history : Option (List PoolRecord)) (now : ℚ) (p : PoolAttrs) : ℚ :=
  [MoonshotWindow.m1, MoonshotWindow.m5, MoonshotWindow.h1, MoonshotWindow.h24].foldl
    (fun b w => let c := windowChange history now p w; if b < c then c else b) 0

/-- One tier rule matches only if all five thresholds hold simultaneously. -/
def criteriaMatch (c : MoonshotCriteria) (p : PoolAttrs) (best : ℚ) : Bool :=
  decide (c.min_liquidity ≤ p.liquidity) && decide (c.min_price_change ≤ best) &&
  decide (c.min_volume_24h ≤ p.volume_24h) && decide (c.min_tx_count_24h ≤ p.tx_count_24h) &&
  decide (c.min_market_cap ≤ p.market_cap)

/-- The tier-selection loop of `_check_moonshot_criteria`: first matching
entry of `MOONSHOT_CRITERIA_LIST`, or none. -/
def checkMoonshotTier (history : Option (List PoolRecord)) (now : ℚ) (p : PoolAttrs) :
    Option MoonshotCriteria :=
  MOONSHOT_CRITERIA_LIST.find? (fun c => criteriaMatch c p (bestMove history now p))

/-- The `MoonshotAlert` constructed by `_check_moonshot_criteria` for a
matching tier. -/
def mkMoonshotAlert (c : MoonshotCriteria) (history : Option (List PoolRecord)) (now : ℚ)
    (p : PoolAttrs) (network : String) : MoonshotAlert :=
  { token_symbol := p.symbol, contract := p.contract, network := network, tier := c.tier,
    price_change_percent := bestMove history now p, volume_24h := p.volume_24h,
    liquidity := p.liquidity, transaction_count := p.tx_count_24h, timestamp := now,
    price_usd := p.price }

/-- `_check_moonshot_criteria` as a whole: alert for the first matching tier. -/
def checkMoonshotAlert (history : Option (List PoolRecord)) (now : ℚ) (p : PoolAttrs)
    (network : String) : Option MoonshotAlert :=
  (checkMoonshotTier history now p).map (fun c => mkMoonshotAlert c history now p network)

/-- `liquidity_change` in `_check_rug_indicators` (0 unless the historical
liquidity is positive). -/
def liquidityChangeOf (r current : PoolRecord) : ℚ :=
  if 0 < r.liquidity then (r.liquidity - current.liquidity) / r.liquidity * 100 else 0

/-- `price_change` in `_check_rug_indicators`. -/
def priceChangeOf (r current : PoolRecord) : ℚ :=
  if 0 < r.price then (r.price - current.price) / r.price * 100 else 0

/-- `volume_change` in `_check_rug_indicators`; a missing `volume_1h` key is
read as 0 via `.get('volume_1h', 0)`. -/
def volumeChangeOf (r current : PoolRecord) : ℚ :=
  let hv := r.volume_1h.getD 0
  let cv := current.volume_1h.getD 0
  if 0 < hv then (cv - hv) / hv * 100 else 0

/-- The `RugAlert` built by `_check_rug_indicators`; `network` is created
empty ("will be set by caller"). -/
def mkRugAlert (r current : PoolRecord) (ty : String) : RugAlert :=
  { token_symbol := current.symbol, contract := current.contract, network := "",
    liquidity_drain_percent := liquidityChangeOf r current,
    price_drop_percent := priceChangeOf r current,
    volume_spike_percent := volumeChangeOf r current,
    final_liquidity := current.liquidity, final_volume_1h := current.volume_1h.getD 0,
    timestamp := current.timestamp, rug_type := ty }

/-- The liquidity-drain condition of `_check_rug_indicators`. -/
def liqDrainHit (r current : PoolRecord) : Prop :=
  RUG_LIQUIDITY_DRAIN_CRITERIA.min_liquidity_drop_percent ≤ liquidityChangeOf r current ∧
  RUG_LIQUIDITY_DRAIN_CRITERIA.min_initial_liquidity ≤ r.liquidity ∧
  current.liquidity < RUG_LIQUIDITY_DRAIN_CRITERIA.max_final_liquidity

instance (r current : PoolRecord) : Decidable (liqDrainHit r current) := by
  unfold liqDrainHit; infer_instance

/-- The price-crash condition of `_check_rug_indicators`. -/
def priceCrashHit (r current : PoolRecord) : Prop :=
  RUG_PRICE_CRASH_CRITERIA.min_price_drop_percent ≤ priceChangeOf r current

instance (r current : PoolRecord) : Decidable (priceCrashHit r current) := by
  unfold priceCrashHit; infer_instance

/-- The volume-dump condition of `_check_rug_indicators`: volume spike AND
concurrent price drop AND minimum prior-volume floor. -/
def volumeDumpHit (r current : PoolRecord) : Prop :=
  RUG_VOLUME_DUMP_CRITERIA.min_volume_spike_percent ≤ volumeChangeOf r current ∧
  RUG_VOLUME_DUMP_CRITERIA.min_price_drop_percent ≤ priceChangeOf r current ∧
  RUG_VOLUME_DUMP_CRITERIA.min_previous_volume ≤ r.volume_1h.getD 0

instance (r current : PoolRecord) : Decidable (volumeDumpHit r current) := by
  unfold volumeDumpHit; infer_instance

/-- `_check_rug_indicators(pool_id, current_data)`: `history` is
`self.pool_history[pool_id]` (which, at the call site, already contains
`current`). -/
def checkRugIndicators (history : List PoolRecord) (current : PoolRecord) : Option RugAlert :=
  if history.length < 2 then none
  else
    match nearestBefore history (current.timestamp - 60) with
    | none => none
    | some r =>
      if MAX_HISTORICAL_DATA_AGE < current.timestamp - r.timestamp then none
      else if liqDrainHit r current then
        some (mkRugAlert r current RUG_LIQUIDITY_DRAIN_CRITERIA.rug_type)
      else if priceCrashHit r current then
        some (mkRugAlert r current RUG_PRICE_CRASH_CRITERIA.rug_type)
      else if volumeDumpHit r current then
        some (mkRugAlert r current RUG_VOLUME_DUMP_CRITERIA.rug_type)
      else none

/-- A rug-scan evaluation as performed by `_scan_network_for_rugs`: the
current snapshot is appended to the pool's history and then
`_check_rug_indicators` runs on the result. -/
def rugScanEval (prior : List PoolRecord) (current : PoolRecord) : Option RugAlert :=
  checkRugIndicators (prior ++ [current]) current

/-- Python dict assignment `m[k] = v` on a per-contract map. -/
def setKey {α : Type} (m : List (String × α)) (k : String) (v : α) : List (String × α) :=
  (k, v) :: m.eraseP (fun pr => pr.1 == k)

/-- The `pool_data` dict built by `_scan_network_for_moonshots` — it has no
`'volume_1h'` key. -/
def moonshotSnapshot (now : ℚ) (p : PoolAttrs) : PoolRecord :=
  { timestamp := now, price := p.price, liquidity := p.liquidity, volume_1h := none,
    symbol := p.symbol, contract := p.contract }

/-- The `pool_data` dict built by `_scan_network_for_rugs` — it carries the
pool's 1-hour volume. -/
def rugSnapshot (now : ℚ) (p : PoolAttrs) : PoolRecord :=
  { timestamp := now, price := p.price, liquidity := p.liquidity, volume_1h := some p.volume_1h,
    symbol := p.symbol, contract := p.contract }

/-- `alert.network = network` in `_broadcast_rug_alert`: the one field write
applied to a `RugAlert` after its creation (the object in `detected_rugs` is
the same object, so the stored record changes too). -/
def rugSetNetwork (a : RugAlert) (n : String) : RugAlert :=
  { a with network := n }

/-- Observable per-pool events of a scan iteration, in program order. -/
inductive ScanEvent where
  | appended
  | recorded (contract : String)
  | dispatched (contract : String) (ok : Bool)
deriving DecidableEq

/-- Outcome of one moonshot-scan loop iteration for one unique pool. -/
structure MoonshotScanResult where
  history : List PoolRecord
  detected : List (String × MoonshotAlert)
  dispatched : Option MoonshotAlert
  events : List ScanEvent
deriving DecidableEq

/-- Outcome of one rug-scan loop iteration for one unique pool. -/
structure RugScanResult where
  history : List PoolRecord
  detected : List (String × RugAlert)
  dispatched : Option RugAlert
  events : List ScanEvent
deriving DecidableEq

/-- One iteration of the per-pool loop of `_scan_network_for_moonshots`
(contract extraction already succeeded): append the snapshot to the pool's
history, then apply the cooldown gate, then classify against the updated
history; on a match, record the alert in `detected_moonshots` and hand it to
the broadcast sink (whose success `ok` is swallowed by `try/except`). -/
def moonshotPoolScan (hist : List PoolRecord) (det : List (String × MoonshotAlert))
    (now : ℚ) (p : PoolAttrs) (network : String) (ok : Bool) : MoonshotScanResult :=
  let hist1 := hist ++ [moonshotSnapshot now p]
  let inCooldown : Bool :=
    match List.lookup p.contract det with
    | some prev => decide (now - prev.timestamp < moonshot_cooldown)
    | none => false
  if inCooldown then
    { history := hist1, detected := det, dispatched := none, events := [.appended] }
  else
    match checkMoonshotAlert (some hist1) now p network with
    | some a =>
      { history := hist1, detected := setKey det p.contract a, dispatched := some a,
        events := [.appended, .recorded p.contract, .dispatched p.contract ok] }
    | none =>
      { history := hist1, detected := det, dispatched := none, events := [.appended] }

/-- One iteration of the per-pool loop of `_scan_network_for_rugs` (contract
extraction already succeeded): the cooldown gate runs first and `continue`s
past everything — including the snapshot append — for an in-cooldown
contract; otherwise append, classify, and on a match record the alert in
`detected_rugs` and broadcast it (the broadcast step sets the shared
record's `network` field before formatting; `ok` is swallowed). -/
def rugPoolScan (hist : List PoolRecord) (det : List (String × RugAlert))
    (now : ℚ) (p : PoolAttrs) (network : String) (ok : Bool) : RugScanResult :=
  let inCooldown : Bool :=
    match List.lookup p.contract det with
    | some prev => decide (now - prev.timestamp < rug_cooldown)
    | none => false
  if inCooldown then
    { history := hist, detected := det, dispatched := none, events := [] }
  else
    let hist1 := hist ++ [rugSnapshot now p]
    match checkRugIndicators hist1 (rugSnapshot now p) with
    | some a =>
      let a1 := rugSetNetwork a network
      { history := hist1, detected := setKey det p.contract a1, dispatched := some a1,
        events := [.appended, .recorded p.contract, .dispatched p.contract ok] }
    | none =>
      { history := hist1, detected := det, dispatched := none, events := [.appended] }

/-- `RateLimiter`: drop timestamps older than the window
(`while self.calls and self.calls[0] < now - self.time_window: popleft`). -/
def rlPrune (window now : ℚ) (calls : List ℚ) : List ℚ :=
  calls.dropWhile (fun t => decide (t < now - window))

/-- `RateLimiter.acquire` body (run under `self._lock`), with
`asyncio.sleep(sleep_time)` modelled as resuming exactly `sleep_time`
later: prune, then if at capacity sleep until the oldest timestamp exits
the window (when that wait is positive) and prune again, then record the
call. Returns the new deque and the completion time. -/
def rlAcquire (maxCalls : ℕ) (window : ℚ) (calls : List ℚ) (now : ℚ) : List ℚ × ℚ :=
  let c1 := rlPrune window now calls
  if maxCalls ≤ c1.length then
    match c1.head? with
    | some c0 =>
      let sleepTime := window - (now - c0)
      if 0 < sleepTime then
        let later := now + sleepTime
        (rlPrune window later c1 ++ [later], later)
      else (c1 ++ [now], now)
    | none => (c1 ++ [now], now)
  else (c1 ++ [now], now)

/-- A sequence of `acquire` calls against one limiter, starting from an
empty deque; `entries` are the times at which each caller obtains the lock
(the lock serializes the bodies). Returns the final deque and the list of
completion times. -/
def rlRun (maxCalls : ℕ) (window : ℚ) (entries : List ℚ) : List ℚ × List ℚ :=
  entries.foldl
    (fun st e =>
      let r := rlAcquire maxCalls window st.1 e
      (r.1, st.2 ++ [r.2]))
    ([], [])

/-! Concrete inputs used by the counterexamples and witnesses below. -/

/-- Pool Q of the spec's scenario: provider-reported 5-minute change 80%,
liquidity 20000, 24h volume 50000, 24h tx count 100, market cap 200000. -/
def poolQ : PoolAttrs :=
  { symbol := "T", contract := "c", price := 1, liquidity := 20000, volume_1h := 0,
    volume_24h := 50000, tx_count_24h := 100, market_cap := 200000,
    api_change_1m := 0, api_change_5m := 80, api_change_1h := 0, api_change_24h := 0 }

/-- A pool history holding only a snapshot taken at the current instant
(what the moonshot scan's own append produces on first sighting). -/
def histFresh : List PoolRecord := [moonshotSnapshot 1000 poolQ]

/-- A pool whose best change (provider-reported 1h = 40%) meets the 10X tier
thresholds exactly but misses the 100X price-change threshold. -/
def pool10X : PoolAttrs :=
  { symbol := "T", contract := "c", price := 1, liquidity := 20000, volume_1h := 0,
    volume_24h := 30000, tx_count_24h := 100, market_cap := 100000,
    api_change_1m := 0, api_change_5m := 0, api_change_1h := 40, api_change_24h := 0 }

/-- A rug-scan snapshot taken at t = 0: price 100, liquidity 50000, 1h
volume 2000. -/
def rugPrior : PoolRecord := ⟨0, 100, 50000, some 2000, "T", "c"⟩

/-- The same pool observed at t = 65 after a liquidity drain: price 100,
liquidity 500, 1h volume 0. -/
def rugCur : PoolRecord := ⟨65, 100, 500, some 0, "T", "c"⟩

/-- The pool attributes whose rug snapshot at t = 65 equals `rugCur`. -/
def rugCurAttrs : PoolAttrs :=
  { symbol := "T", contract := "c", price := 100, liquidity := 500, volume_1h := 0,
    volume_24h := 0, tx_count_24h := 0, market_cap := 0,
    api_change_1m := 0, api_change_5m := 0, api_change_1h := 0, api_change_24h := 0 }

/-- A previously fired moonshot alert for contract "c" at t = 0. -/
def prevMoonshot : MoonshotAlert :=
  { token_symbol := "T", contract := "c", network := "eth", tier := "POTENTIAL 100X",
    price_change_percent := 100, volume_24h := 50000, liquidity := 20000,
    transaction_count := 100, timestamp := 0, price_usd := 20 }

/-- A previously fired rug alert for contract "c" at t = 0. -/
def prevRug : RugAlert :=
  { token_symbol := "T", contract := "c", network := "eth",
    liquidity_drain_percent := 99, price_drop_percent := 0, volume_spike_percent := 0,
    final_liquidity := 500, final_volume_1h := 0, timestamp := 0,
    rug_type := "LIQUIDITY_DRAIN" }

/-- An old snapshot (t = 3000, price 10) giving a 100% 1m/5m move against a
current price of 20 at t = 3600. -/
def histOld : List PoolRecord := [⟨3000, 10, 20000, none, "T", "c"⟩]

/-- The pool attributes of that pump at t = 3600. -/
def poolPump : PoolAttrs :=
  { symbol := "T", contract := "c", price := 20, liquidity := 20000, volume_1h := 0,
    volume_24h := 50000, tx_count_24h := 100, market_cap := 200000,
    api_change_1m := 0, api_change_5m := 0, api_change_1h := 0, api_change_24h := 0 }

/-- A rug-scan snapshot at t = 3540 (price 100, liquidity 50000, 1h volume
2000), 60 seconds before a drained observation at t = 3600. -/
def histRug3540 : List PoolRecord := [⟨3540, 100, 50000, some 2000, "T", "c"⟩]

/-- A 60s-ago baseline appended by the moonshot scan (no 1h-volume field). -/
def baseNoVol : PoolRecord := ⟨0, 100, 20000, none, "T", "c"⟩

/-- A current rug-scan record at t = 65: price crashed 70%, huge 1h volume. -/
def curAfterCrash : PoolRecord := ⟨65, 30, 15000, some 1000000, "T", "c"⟩

/-! Helper lemmas (shared). -/

/-- A successful nearest-before lookup yields a record of the history whose
timestamp is at or before the target. -/
theorem nearestBefore_sound (l : List PoolRecord) (t : ℚ) :
    ∀ r, nearestBefore l t = some r → r ∈ l ∧ r.timestamp ≤ t := by
  induction l with
  | nil => intro r h; simp [nearestBefore] at h
  | cons a l ih =>
    intro r h
    rw [nearestBefore] at h
    cases hl : nearestBefore l t with
    | none =>
      rw [hl] at h
      dsimp only at h
      by_cases ha : a.timestamp ≤ t
      · rw [if_pos ha] at h
        simp only [Option.some.injEq] at h
        subst h
        exact ⟨List.mem_cons_self _ _, ha⟩
      · rw [if_neg ha] at h
        exact absurd h (by simp)
    | some b =>
      rw [hl] at h
      dsimp only at h
      rcases ih b hl with ⟨hb1, hb2⟩
      by_cases ha : a.timestamp ≤ t
      · rw [if_pos ha] at h
        by_cases hba : b.timestamp ≤ a.timestamp
        · rw [if_pos hba] at h
          simp only [Option.some.injEq] at h
          subst h
          exact ⟨List.mem_cons_self _ _, ha⟩
        · rw [if_neg hba] at h
          simp only [Option.some.injEq] at h
          subst h
          exact ⟨List.mem_cons_of_mem a hb1, hb2⟩
      · rw [if_neg ha] at h
        simp only [Option.some.injEq] at h
        subst h
        exact ⟨List.mem_cons_of_mem a hb1, hb2⟩

/-- Looking up a key just written by `setKey` returns the written value. -/
theorem lookup_setKey_self {α : Type} (m : List (String × α)) (k : String) (v : α) :
    List.lookup k (setKey m k v) = some v := by
  simp [setKey, List.lookup]

/-! Claim C1. -/

/-- C1 (counterexample): the per-window provider fallback claimed by the
spec does not happen. For a pool whose history holds only a snapshot taken
at the current instant, the 5-minute window has no historical snapshot
(`nearestBefore` is `none`), the provider reports an 80% 5-minute change,
yet the classifier uses 0 for that window — missing window history IS
treated as a zero delta, and the pool that the claim would classify as
POTENTIAL 100X (as the no-history fallback indeed does) is not classified
at all. -/
theorem C1_counterexample :
    nearestBefore histFresh (1000 - MoonshotWindow.m5.seconds) = none ∧
    MoonshotWindow.m5.apiChange poolQ = 80 ∧
    windowChange (some histFresh) 1000 poolQ MoonshotWindow.m5 = 0 ∧
    windowChange (some histFresh) 1000 poolQ MoonshotWindow.m5 ≠
      MoonshotWindow.m5.apiChange poolQ ∧
    checkMoonshotTier (some histFresh) 1000 poolQ = none ∧
    checkMoonshotTier none 1000 poolQ = some MOONSHOT_100X_CRITERIA := by
  norm_num [histFresh, poolQ, moonshotSnapshot, nearestBefore, MoonshotWindow.seconds,
    MoonshotWindow.apiChange, windowChange, checkMoonshotTier, MOONSHOT_CRITERIA_LIST,
    bestMove, criteriaMatch, List.find?, MOONSHOT_100X_CRITERIA, MOONSHOT_10X_CRITERIA,
    MOONSHOT_2X_CRITERIA]

/-- C1 (amended): the fallback to the provider-reported percent-change
fields is per pool, not per window: it happens exactly when the pool has no
snapshot history at all (then every window uses its provider field); when
the pool has a history but no snapshot old enough for a window, that
window's delta is 0. -/
theorem C1_amended_fallback (h : List PoolRecord) (now : ℚ) (p : PoolAttrs)
    (w : MoonshotWindow) :
    windowChange none now p w = w.apiChange p ∧
    (nearestBefore h (now - w.seconds) = none → windowChange (some h) now p w = 0) := by
  constructor
  · rfl
  · intro hn
    simp [windowChange, hn]

/-- C1 witness: the amended statement evaluated at the concrete pool of the
counterexample. -/
theorem C1_amended_fallback_witness :
    windowChange none 1000 poolQ MoonshotWindow.m5 = MoonshotWindow.m5.apiChange poolQ ∧
    windowChange (some histFresh) 1000 poolQ MoonshotWindow.m5 = 0 :=
  ⟨(C1_amended_fallback histFresh 1000 poolQ MoonshotWindow.m5).1,
   (C1_amended_fallback histFresh 1000 poolQ MoonshotWindow.m5).2 (by
     norm_num [histFresh, nearestBefore, moonshotSnapshot, poolQ, MoonshotWindow.seconds])⟩

/-! Claim C2. -/

/-- C2: the moonshot classifier checks the ordered list
100X → 10X → 2X; it returns none exactly when no tier's five thresholds all
hold; and whenever the tier at position `i` matches, the returned tier sits
at a position `j ≤ i` (a matching pool is never reported as a less valuable
tier than one it satisfies). -/
theorem C2_tier_order (history : Option (List PoolRecord)) (now : ℚ) (p : PoolAttrs) :
    MOONSHOT_CRITERIA_LIST =
      [MOONSHOT_100X_CRITERIA, MOONSHOT_10X_CRITERIA, MOONSHOT_2X_CRITERIA] ∧
    (checkMoonshotTier history now p = none ↔
      ∀ c ∈ MOONSHOT_CRITERIA_LIST, criteriaMatch c p (bestMove history now p) = false) ∧
    (∀ (T : MoonshotCriteria) (i : ℕ), MOONSHOT_CRITERIA_LIST.get? i = some T →
      criteriaMatch T p (bestMove history now p) = true →
      ∃ (c : MoonshotCriteria) (j : ℕ), j ≤ i ∧ MOONSHOT_CRITERIA_LIST.get? j = some c ∧
        checkMoonshotTier history now p = some c ∧
        criteriaMatch c p (bestMove history now p) = true) := by
  refine ⟨rfl, ?_⟩
  cases h1 : criteriaMatch MOONSHOT_100X_CRITERIA p (bestMove history now p) with
  | true =>
    have hres : checkMoonshotTier history now p = some MOONSHOT_100X_CRITERIA := by
      simp [checkMoonshotTier, MOONSHOT_CRITERIA_LIST, List.find?, h1]
    refine ⟨by simp [hres, MOONSHOT_CRITERIA_LIST, h1], ?_⟩
    intro T i hi hm
    exact ⟨MOONSHOT_100X_CRITERIA, 0, Nat.zero_le i, rfl, hres, h1⟩
  | false =>
    cases h2 : criteriaMatch MOONSHOT_10X_CRITERIA p (bestMove history now p) with
    | true =>
      have hres : checkMoonshotTier history now p = some MOONSHOT_10X_CRITERIA := by
        simp [checkMoonshotTier, MOONSHOT_CRITERIA_LIST, List.find?, h1, h2]
      refine ⟨by simp [hres, MOONSHOT_CRITERIA_LIST, h2], ?_⟩
      intro T i hi hm
      match i with
      | 0 =>
        simp only [MOONSHOT_CRITERIA_LIST, List.get?] at hi
        cases hi
        rw [h1] at hm
        cases hm
      | n + 1 =>
        exact ⟨MOONSHOT_10X_CRITERIA, 1, by omega, rfl, hres, h2⟩
    | false =>
      cases h3 : criteriaMatch MOONSHOT_2X_CRITERIA p (bestMove history now p) with
      | true =>
        have hres : checkMoonshotTier history now p = some MOONSHOT_2X_CRITERIA := by
          simp [checkMoonshotTier, MOONSHOT_CRITERIA_LIST, List.find?, h1, h2, h3]
        refine ⟨by simp [hres, MOONSHOT_CRITERIA_LIST, h3], ?_⟩
        intro T i hi hm
        match i with
        | 0 =>
          simp only [MOONSHOT_CRITERIA_LIST, List.get?] at hi
          cases hi
          rw [h1] at hm
          cases hm
        | 1 =>
          simp only [MOONSHOT_CRITERIA_LIST, List.get?] at hi
          cases hi
          rw [h2] at hm
          cases hm
        | n + 2 =>
          exact ⟨MOONSHOT_2X_CRITERIA, 2, by omega, rfl, hres, h3⟩
      | false =>
        have hres : checkMoonshotTier history now p = none := by
          simp [checkMoonshotTier, MOONSHOT_CRITERIA_LIST, List.find?, h1, h2, h3]
        refine ⟨by simp [hres, MOONSHOT_CRITERIA_LIST, h1, h2, h3], ?_⟩
        intro T i hi hm
        match i with
        | 0 =>
          simp only [MOONSHOT_CRITERIA_LIST, List.get?] at hi
          cases hi
          rw [h1] at hm
          cases hm
        | 1 =>
          simp only [MOONSHOT_CRITERIA_LIST, List.get?] at hi
          cases hi
          rw [h2] at hm
          cases hm
        | 2 =>
          simp only [MOONSHOT_CRITERIA_LIST, List.get?] at hi
          cases hi
          rw [h3] at hm
          cases hm
        | n + 3 =>
          simp [MOONSHOT_CRITERIA_LIST, List.get?] at hi

/-- C2 witness: a pool meeting exactly the 10X thresholds (position 1) is
reported at a position `j ≤ 1`. -/
theorem C2_tier_order_witness :
    ∃ (c : MoonshotCriteria) (j : ℕ), j ≤ 1 ∧ MOONSHOT_CRITERIA_LIST.get? j = some c ∧
      checkMoonshotTier none 0 pool10X = some c ∧
      criteriaMatch c pool10X (bestMove none 0 pool10X) = true :=
  (C2_tier_order none 0 pool10X).2.2 MOONSHOT_10X_CRITERIA 1 rfl (by
    norm_num [criteriaMatch, pool10X, bestMove, windowChange, MoonshotWindow.apiChange,
      MOONSHOT_10X_CRITERIA])

/-! Claim C8. -/

/-- C8: pool Q — no snapshot history, provider-reported 5-minute change
80%, liquidity 20000, 24h volume 50000, 24h tx count 100, market cap
200000 — is classified as the top tier, whose rule is exactly
`{minLiquidity 10000, minPriceChange 75, minVolume24h 15000, minTx24h 75,
minMarketCap 50000}` with label "POTENTIAL 100X". -/
theorem C8_top_tier_scenario :
    poolQ.api_change_5m = 80 ∧ poolQ.liquidity = 20000 ∧ poolQ.volume_24h = 50000 ∧
    poolQ.tx_count_24h = 100 ∧ poolQ.market_cap = 200000 ∧
    MOONSHOT_100X_CRITERIA =
      { min_liquidity := 10000, min_price_change := 75, min_volume_24h := 15000,
        min_tx_count_24h := 75, min_market_cap := 50000, tier := "POTENTIAL 100X" } ∧
    checkMoonshotTier none 1000 poolQ = some MOONSHOT_100X_CRITERIA ∧
    (checkMoonshotAlert none 1000 poolQ "eth").map MoonshotAlert.tier =
      some "POTENTIAL 100X" := by
  norm_num [poolQ, checkMoonshotTier, checkMoonshotAlert, MOONSHOT_CRITERIA_LIST, bestMove,
    windowChange, MoonshotWindow.apiChange, criteriaMatch, List.find?, MOONSHOT_100X_CRITERIA,
    MOONSHOT_10X_CRITERIA, MOONSHOT_2X_CRITERIA, mkMoonshotAlert]

/-! Claim C3. -/

/-- C3: a rug-scan evaluation (append the current snapshot, then classify)
returns none when no snapshot sits at or before now − 60s, and when the
best such snapshot is older than the staleness tolerance
(`MAX_HISTORICAL_DATA_AGE`); otherwise it evaluates liquidity-drain, then
price-crash, then volume-dump — the latter requiring the volume-spike
threshold, its own concurrent price-drop threshold, and the minimum
prior-volume floor — and returns the first matching type. -/
theorem C3_rug_rule_order (prior : List PoolRecord) (current : PoolRecord) :
    (nearestBefore (prior ++ [current]) (current.timestamp - 60) = none →
      rugScanEval prior current = none) ∧
    (∀ r, nearestBefore (prior ++ [current]) (current.timestamp - 60) = some r →
      (MAX_HISTORICAL_DATA_AGE < current.timestamp - r.timestamp →
        rugScanEval prior current = none) ∧
      (current.timestamp - r.timestamp ≤ MAX_HISTORICAL_DATA_AGE →
        rugScanEval prior current =
          if liqDrainHit r current then some (mkRugAlert r current "LIQUIDITY_DRAIN")
          else if priceCrashHit r current then some (mkRugAlert r current "PRICE_CRASH")
          else if volumeDumpHit r current then some (mkRugAlert r current "VOLUME_DUMP")
          else none)) := by
  constructor
  · intro hn
    simp [rugScanEval, checkRugIndicators, hn, ite_self]
  · intro r hr
    have hmem := nearestBefore_sound (prior ++ [current]) (current.timestamp - 60) r hr
    have hprior : prior ≠ [] := by
      intro he
      subst he
      rcases hmem with ⟨hm, hts⟩
      simp at hm
      subst hm
      linarith
    have hlen : ¬ (prior ++ [current]).length < 2 := by
      cases prior with
      | nil => exact absurd rfl hprior
      | cons a l => simp [List.length_append]
    constructor
    · intro hstale
      simp [rugScanEval, checkRugIndicators, hlen, hr, hstale]
    · intro hok
      have hstale : ¬ MAX_HISTORICAL_DATA_AGE < current.timestamp - r.timestamp :=
        not_lt.mpr hok
      simp only [rugScanEval, checkRugIndicators, if_neg hlen, hr, if_neg hstale]
      rfl

/-- C3 witness: with no usable history the evaluation returns none; for a
pool observed at t = 0 with liquidity 50000 and at t = 65 with liquidity
500, it returns the liquidity-drain alert. -/
theorem C3_rug_rule_order_witness :
    rugScanEval [] rugCur = none ∧
    rugScanEval [rugPrior] rugCur = some (mkRugAlert rugPrior rugCur "LIQUIDITY_DRAIN") := by
  constructor
  · exact (C3_rug_rule_order [] rugCur).1 (by norm_num [nearestBefore, rugCur])
  · have h := ((C3_rug_rule_order [rugPrior] rugCur).2 rugPrior
      (by norm_num [nearestBefore, rugPrior, rugCur])).2
      (by norm_num [rugPrior, rugCur, MAX_HISTORICAL_DATA_AGE])
    have hc : liqDrainHit rugPrior rugCur := by
      norm_num [liqDrainHit, liquidityChangeOf, rugPrior, rugCur, RUG_LIQUIDITY_DRAIN_CRITERIA]
    rw [h, if_pos hc]

/-! Claim C10. -/

/-- C10: every snapshot appended by the moonshot scan lacks the 1h-volume
field, and whenever the 60-seconds-ago baseline of a rug evaluation lacks
that field, the prior 1h volume reads as 0, the computed volume-spike
percent is 0, the volume-dump condition fails (its prior-volume floor
cannot hold), and the evaluation never returns a VOLUME_DUMP alert. -/
theorem C10_moonshot_baseline_blocks_volume_dump :
    (∀ (hist : List PoolRecord) (det : List (String × MoonshotAlert)) (now : ℚ)
        (p : PoolAttrs) (net : String) (ok : Bool),
      (moonshotPoolScan hist det now p net ok).history = hist ++ [moonshotSnapshot now p] ∧
      (moonshotSnapshot now p).volume_1h = none) ∧
    (∀ (history : List PoolRecord) (current r : PoolRecord),
      nearestBefore history (current.timestamp - 60) = some r → r.volume_1h = none →
      volumeChangeOf r current = 0 ∧ ¬ volumeDumpHit r current ∧
      ∀ a, checkRugIndicators history current = some a → a.rug_type ≠ "VOLUME_DUMP") := by
  constructor
  · intro hist det now p net ok
    refine ⟨?_, rfl⟩
    simp only [moonshotPoolScan]
    split
    · rfl
    · split <;> rfl
  · intro history current r hr hv
    have h0 : volumeChangeOf r current = 0 := by
      simp [volumeChangeOf, hv]
    have hnd : ¬ volumeDumpHit r current := by
      intro hd
      rcases hd with ⟨hd1, hd2, hd3⟩
      rw [hv] at hd3
      simp [RUG_VOLUME_DUMP_CRITERIA] at hd3
      linarith
    refine ⟨h0, hnd, ?_⟩
    intro a ha
    rw [checkRugIndicators, hr] at ha
    dsimp only at ha
    repeat' split at ha
    all_goals try cases ha
    all_goals try exact show RUG_LIQUIDITY_DRAIN_CRITERIA.rug_type ≠ "VOLUME_DUMP" by decide
    all_goals exact show RUG_PRICE_CRASH_CRITERIA.rug_type ≠ "VOLUME_DUMP" by decide

/-- C10 witness: against a baseline appended by the moonshot scan (no
1h-volume field) a 70% price crash with enormous current volume yields a
PRICE_CRASH alert, never VOLUME_DUMP, and the computed spike is 0. -/
theorem C10_moonshot_baseline_blocks_volume_dump_witness :
    ((moonshotPoolScan [] [] 0 poolQ "eth" true).history = [moonshotSnapshot 0 poolQ] ∧
      (moonshotSnapshot 0 poolQ).volume_1h = none) ∧
    (volumeChangeOf baseNoVol curAfterCrash = 0 ∧ ¬ volumeDumpHit baseNoVol curAfterCrash ∧
      ∀ a, checkRugIndicators [baseNoVol, curAfterCrash] curAfterCrash = some a →
        a.rug_type ≠ "VOLUME_DUMP") :=
  ⟨(C10_moonshot_baseline_blocks_volume_dump.1 [] [] 0 poolQ "eth" true),
   C10_moonshot_baseline_blocks_volume_dump.2 [baseNoVol, curAfterCrash] curAfterCrash
     baseNoVol (by norm_num [nearestBefore, baseNoVol, curAfterCrash]) rfl⟩

/-! Claim C5. -/

/-- C5: per contract and per alert class independently, with a prior alert
recorded at time `t`, a detection at `t + ε` with `ε` strictly below the
cooldown (3600 s) dispatches nothing, while a detection at
`t + cooldown + ε` (ε ≥ 0) whose classifier matches dispatches an alert. -/
theorem C5_cooldown_window :
    (∀ (hist : List PoolRecord) (det : List (String × MoonshotAlert)) (p : PoolAttrs)
        (net : String) (ok : Bool) (prev : MoonshotAlert) (t e : ℚ),
      List.lookup p.contract det = some prev → prev.timestamp = t →
      (e < moonshot_cooldown →
        (moonshotPoolScan hist det (t + e) p net ok).dispatched = none) ∧
      (0 ≤ e →
        ∀ a, checkMoonshotAlert (some (hist ++ [moonshotSnapshot (t + moonshot_cooldown + e) p]))
            (t + moonshot_cooldown + e) p net = some a →
          (moonshotPoolScan hist det (t + moonshot_cooldown + e) p net ok).dispatched =
            some a)) ∧
    (∀ (hist : List PoolRecord) (det : List (String × RugAlert)) (p : PoolAttrs)
        (net : String) (ok : Bool) (prev : RugAlert) (t e : ℚ),
      List.lookup p.contract det = some prev → prev.timestamp = t →
      (e < rug_cooldown →
        (rugPoolScan hist det (t + e) p net ok).dispatched = none) ∧
      (0 ≤ e →
        ∀ a, checkRugIndicators (hist ++ [rugSnapshot (t + rug_cooldown + e) p])
            (rugSnapshot (t + rug_cooldown + e) p) = some a →
          (rugPoolScan hist det (t + rug_cooldown + e) p net ok).dispatched =
            some (rugSetNetwork a net))) := by
  constructor
  · intro hist det p net ok prev t e hlk ht
    constructor
    · intro he
      have hc : t + e - prev.timestamp < moonshot_cooldown := by
        rw [ht]; linarith
      simp [moonshotPoolScan, hlk, hc]
    · intro he a ha
      have hc : ¬ (t + moonshot_cooldown + e - prev.timestamp < moonshot_cooldown) := by
        rw [ht]; linarith
      simp [moonshotPoolScan, hlk, hc, ha]
  · intro hist det p net ok prev t e hlk ht
    constructor
    · intro he
      have hc : t + e - prev.timestamp < rug_cooldown := by
        rw [ht]; linarith
      simp [rugPoolScan, hlk, hc]
    · intro he a ha
      have hc : ¬ (t + rug_cooldown + e - prev.timestamp < rug_cooldown) := by
        rw [ht]; linarith
      simp [rugPoolScan, hlk, hc, ha]

/-- C5 witness: with an alert for contract "c" fired at t = 0, detections
at t = 0 + 10 dispatch nothing for either class, while matching detections
at t = 0 + 3600 + 0 dispatch an alert for each class. -/
theorem C5_cooldown_window_witness :
    (moonshotPoolScan histOld [("c", prevMoonshot)] (0 + 10) poolPump "eth" true).dispatched =
      none ∧
    (moonshotPoolScan histOld [("c", prevMoonshot)] (0 + moonshot_cooldown + 0) poolPump "eth"
        true).dispatched =
      some (mkMoonshotAlert MOONSHOT_100X_CRITERIA
        (some (histOld ++ [moonshotSnapshot (0 + moonshot_cooldown + 0) poolPump]))
        (0 + moonshot_cooldown + 0) poolPump "eth") ∧
    (rugPoolScan histRug3540 [("c", prevRug)] (0 + 10) rugCurAttrs "eth" true).dispatched =
      none ∧
    (rugPoolScan histRug3540 [("c", prevRug)] (0 + rug_cooldown + 0) rugCurAttrs "eth"
        true).dispatched =
      some (rugSetNetwork
        (mkRugAlert ⟨3540, 100, 50000, some 2000, "T", "c"⟩
          (rugSnapshot (0 + rug_cooldown + 0) rugCurAttrs) "LIQUIDITY_DRAIN") "eth") := by
  refine ⟨?_, ?_, ?_, ?_⟩
  · exact (C5_cooldown_window.1 histOld [("c", prevMoonshot)] poolPump "eth" true prevMoonshot
      0 10 (by norm_num [List.lookup, poolPump]) rfl).1 (by norm_num [moonshot_cooldown])
  · exact (C5_cooldown_window.1 histOld [("c", prevMoonshot)] poolPump "eth" true prevMoonshot
      0 0 (by norm_num [List.lookup, poolPump]) rfl).2 le_rfl _ (by
        norm_num [checkMoonshotAlert, checkMoonshotTier, MOONSHOT_CRITERIA_LIST, bestMove,
          windowChange, MoonshotWindow.seconds, MoonshotWindow.apiChange, criteriaMatch,
          List.find?, MOONSHOT_100X_CRITERIA, MOONSHOT_10X_CRITERIA, MOONSHOT_2X_CRITERIA,
          histOld, poolPump, moonshotSnapshot, nearestBefore, moonshot_cooldown])
  · exact (C5_cooldown_window.2 histRug3540 [("c", prevRug)] rugCurAttrs "eth" true prevRug
      0 10 (by norm_num [List.lookup, rugCurAttrs]) rfl).1 (by norm_num [rug_cooldown])
  · exact (C5_cooldown_window.2 histRug3540 [("c", prevRug)] rugCurAttrs "eth" true prevRug
      0 0 (by norm_num [List.lookup, rugCurAttrs]) rfl).2 le_rfl _ (by
        norm_num [checkRugIndicators, nearestBefore, histRug3540, rugCurAttrs, rugSnapshot,
          MAX_HISTORICAL_DATA_AGE, rug_cooldown, liqDrainHit, liquidityChangeOf,
          RUG_LIQUIDITY_DRAIN_CRITERIA, mkRugAlert, priceChangeOf, volumeChangeOf])

/-! Claim C9. -/

/-- C9: for both scan classes, whenever an alert is handed to the dispatch
sink, the per-contract map already holds that very record (the event list
is append, record, then dispatch, in that order), and the resulting state
is identical whether the dispatch succeeds or fails — a failed dispatch
does not remove or roll back the recorded alert. -/
theorem C9_record_then_dispatch :
    (∀ (hist : List PoolRecord) (det : List (String × MoonshotAlert)) (now : ℚ)
        (p : PoolAttrs) (net : String) (ok : Bool),
      (∀ a, (moonshotPoolScan hist det now p net ok).dispatched = some a →
        List.lookup p.contract (moonshotPoolScan hist det now p net ok).detected = some a ∧
        (moonshotPoolScan hist det now p net ok).events =
          [ScanEvent.appended, ScanEvent.recorded p.contract,
            ScanEvent.dispatched p.contract ok]) ∧
      (moonshotPoolScan hist det now p net true).detected =
        (moonshotPoolScan hist det now p net false).detected ∧
      (moonshotPoolScan hist det now p net true).dispatched =
        (moonshotPoolScan hist det now p net false).dispatched) ∧
    (∀ (hist : List PoolRecord) (det : List (String × RugAlert)) (now : ℚ)
        (p : PoolAttrs) (net : String) (ok : Bool),
      (∀ a, (rugPoolScan hist det now p net ok).dispatched = some a →
        List.lookup p.contract (rugPoolScan hist det now p net ok).detected = some a ∧
        (rugPoolScan hist det now p net ok).events =
          [ScanEvent.appended, ScanEvent.recorded p.contract,
            ScanEvent.dispatched p.contract ok]) ∧
      (rugPoolScan hist det now p net true).detected =
        (rugPoolScan hist det now p net false).detected ∧
      (rugPoolScan hist det now p net true).dispatched =
        (rugPoolScan hist det now p net false).dispatched) := by
  constructor
  · intro hist det now p net ok
    refine ⟨?_, ?_, ?_⟩
    · intro a ha
      simp only [moonshotPoolScan] at ha ⊢
      split at ha
      next hcool => cases ha
      next hcool =>
        split at ha
        next b heq =>
          simp only [Option.some.injEq] at ha
          subst ha
          rw [if_neg hcool]
          exact ⟨lookup_setKey_self det p.contract _, rfl⟩
        next heq => cases ha
    · simp only [moonshotPoolScan]
      split
      · rfl
      · split <;> rfl
    · simp only [moonshotPoolScan]
      split
      · rfl
      · split <;> rfl
  · intro hist det now p net ok
    refine ⟨?_, ?_, ?_⟩
    · intro a ha
      simp only [rugPoolScan] at ha ⊢
      split at ha
      next hcool => cases ha
      next hcool =>
        split at ha
        next b heq =>
          simp only [Option.some.injEq] at ha
          subst ha
          rw [if_neg hcool]
          exact ⟨lookup_setKey_self det p.contract _, rfl⟩
        next heq => cases ha
    · simp only [rugPoolScan]
      split
      · rfl
      · split <;> rfl
    · simp only [rugPoolScan]
      split
      · rfl
      · split <;> rfl

/-- C9 witness: the liquidity-drain detection at t = 65 with a failing
dispatch still holds the alert in the per-contract map, with events in
append → record → dispatch order, and the map equals the one produced by a
successful dispatch. -/
theorem C9_record_then_dispatch_witness :
    (List.lookup "c" (rugPoolScan [rugPrior] [] 65 rugCurAttrs "eth" false).detected =
      some (rugSetNetwork (mkRugAlert rugPrior rugCur "LIQUIDITY_DRAIN") "eth") ∧
      (rugPoolScan [rugPrior] [] 65 rugCurAttrs "eth" false).events =
        [ScanEvent.appended, ScanEvent.recorded "c", ScanEvent.dispatched "c" false]) ∧
    (rugPoolScan [rugPrior] [] 65 rugCurAttrs "eth" true).detected =
      (rugPoolScan [rugPrior] [] 65 rugCurAttrs "eth" false).detected := by
  constructor
  · have h := (C9_record_then_dispatch.2 [rugPrior] [] 65 rugCurAttrs "eth" false).1
      (rugSetNetwork (mkRugAlert rugPrior rugCur "LIQUIDITY_DRAIN") "eth") (by
        norm_num [rugPoolScan, List.lookup, rugCurAttrs, rugSnapshot, rugPrior, rugCur,
          checkRugIndicators, nearestBefore, MAX_HISTORICAL_DATA_AGE, liqDrainHit,
          liquidityChangeOf, RUG_LIQUIDITY_DRAIN_CRITERIA, mkRugAlert, rugSetNetwork,
          priceChangeOf, volumeChangeOf, setKey])
    have hc : rugCurAttrs.contract = "c" := rfl
    rw [hc] at h
    exact h
  · exact (C9_record_then_dispatch.2 [rugPrior] [] 65 rugCurAttrs "eth" true).2.1

/-! Claim C6. -/

/-- C6 (counterexample): a `RugAlert` is not immutable after creation. The
record created by the classifier carries an empty network field, yet the
record held in the per-contract map after the broadcast step carries the
scanned network — the stored record was changed after creation (in the
source both are the same Python object, mutated by
`alert.network = network`). -/
theorem C6_counterexample :
    (checkRugIndicators [rugPrior, rugCur] rugCur).map RugAlert.network = some "" ∧
    (List.lookup "c" (rugPoolScan [rugPrior] [] 65 rugCurAttrs "eth" true).detected).map
      RugAlert.network = some "eth" ∧
    List.lookup "c" (rugPoolScan [rugPrior] [] 65 rugCurAttrs "eth" true).detected ≠
      checkRugIndicators [rugPrior, rugCur] rugCur := by
  norm_num [rugPoolScan, rugCurAttrs, rugSnapshot, rugPrior, rugCur, checkRugIndicators,
    nearestBefore, MAX_HISTORICAL_DATA_AGE, liqDrainHit, liquidityChangeOf,
    RUG_LIQUIDITY_DRAIN_CRITERIA, mkRugAlert, rugSetNetwork, priceChangeOf, volumeChangeOf,
    setKey, List.lookup]
  decide

/-- C6 (amended): `MoonshotAlert` records are never changed after creation
(the dispatched and stored record is exactly the one the classifier built),
and the only post-creation change ever applied to a `RugAlert` is the
broadcast step writing the scanned network into its (empty-at-creation)
`network` field — every other field is preserved; a fresh detection stores
a new record that replaces the old one under its contract key. -/
theorem C6_alert_record_mutation :
    (∀ (a : RugAlert) (n : String),
      (rugSetNetwork a n).network = n ∧
      (rugSetNetwork a n).token_symbol = a.token_symbol ∧
      (rugSetNetwork a n).contract = a.contract ∧
      (rugSetNetwork a n).liquidity_drain_percent = a.liquidity_drain_percent ∧
      (rugSetNetwork a n).price_drop_percent = a.price_drop_percent ∧
      (rugSetNetwork a n).volume_spike_percent = a.volume_spike_percent ∧
      (rugSetNetwork a n).final_liquidity = a.final_liquidity ∧
      (rugSetNetwork a n).final_volume_1h = a.final_volume_1h ∧
      (rugSetNetwork a n).timestamp = a.timestamp ∧
      (rugSetNetwork a n).rug_type = a.rug_type) ∧
    (∀ (history : List PoolRecord) (current : PoolRecord) (a : RugAlert),
      checkRugIndicators history current = some a → a.network = "") ∧
    (∀ (hist : List PoolRecord) (det : List (String × MoonshotAlert)) (now : ℚ)
        (p : PoolAttrs) (net : String) (ok : Bool) (a : MoonshotAlert),
      (moonshotPoolScan hist det now p net ok).dispatched = some a →
      checkMoonshotAlert (some (hist ++ [moonshotSnapshot now p])) now p net = some a ∧
      List.lookup p.contract (moonshotPoolScan hist det now p net ok).detected = some a) ∧
    (∀ (hist : List PoolRecord) (det : List (String × RugAlert)) (now : ℚ)
        (p : PoolAttrs) (net : String) (ok : Bool) (a : RugAlert),
      checkRugIndicators (hist ++ [rugSnapshot now p]) (rugSnapshot now p) = some a →
      (rugPoolScan hist det now p net ok).dispatched = none ∨
      ((rugPoolScan hist det now p net ok).dispatched = some (rugSetNetwork a net) ∧
        List.lookup p.contract (rugPoolScan hist det now p net ok).detected =
          some (rugSetNetwork a net))) ∧
    (∀ {α : Type} (det : List (String × α)) (k : String) (v : α),
      List.lookup k (setKey det k v) = some v) := by
  refine ⟨?_, ?_, ?_, ?_, ?_⟩
  · intro a n
    refine ⟨rfl, rfl, rfl, rfl, rfl, rfl, rfl, rfl, rfl, rfl⟩
  · intro history current a ha
    rw [checkRugIndicators] at ha
    repeat' split at ha
    all_goals try cases ha
    all_goals rfl
  · intro hist det now p net ok a ha
    simp only [moonshotPoolScan] at ha ⊢
    split at ha
    next hcool => cases ha
    next hcool =>
      split at ha
      next b heq =>
        simp only [Option.some.injEq] at ha
        subst ha
        rw [if_neg hcool]
        exact ⟨heq, lookup_setKey_self det p.contract _⟩
      next heq => cases ha
  · intro hist det now p net ok a ha
    simp only [rugPoolScan]
    split
    next hcool => exact Or.inl rfl
    next hcool =>
      rw [ha]
      exact Or.inr ⟨rfl, lookup_setKey_self det p.contract _⟩
  · intro α det k v
    exact lookup_setKey_self det k v

/-- C6 witness: at the liquidity-drain instance, the classifier-built
record has an empty network, the dispatched and stored record is that
record with only its network set, and re-recording under the same contract
replaces the old entry. -/
theorem C6_alert_record_mutation_witness :
    (rugSetNetwork (mkRugAlert rugPrior rugCur "LIQUIDITY_DRAIN") "eth").network = "eth" ∧
    (rugSetNetwork (mkRugAlert rugPrior rugCur "LIQUIDITY_DRAIN") "eth").rug_type =
      (mkRugAlert rugPrior rugCur "LIQUIDITY_DRAIN").rug_type ∧
    (mkRugAlert rugPrior rugCur "LIQUIDITY_DRAIN").network = "" ∧
    ((rugPoolScan [rugPrior] [] 65 rugCurAttrs "eth" true).dispatched =
        some (rugSetNetwork (mkRugAlert rugPrior rugCur "LIQUIDITY_DRAIN") "eth") ∧
      List.lookup "c" (rugPoolScan [rugPrior] [] 65 rugCurAttrs "eth" true).detected =
        some (rugSetNetwork (mkRugAlert rugPrior rugCur "LIQUIDITY_DRAIN") "eth")) ∧
    List.lookup "c" (setKey [("c", prevRug)] "c" (mkRugAlert rugPrior rugCur "LIQUIDITY_DRAIN")) =
      some (mkRugAlert rugPrior rugCur "LIQUIDITY_DRAIN") := by
  refine ⟨(C6_alert_record_mutation.1 (mkRugAlert rugPrior rugCur "LIQUIDITY_DRAIN") "eth").1,
    (C6_alert_record_mutation.1 (mkRugAlert rugPrior rugCur "LIQUIDITY_DRAIN") "eth").2.2.2.2.2.2.2.2.2,
    C6_alert_record_mutation.2.1 [rugPrior, rugCur] rugCur _ (by
      norm_num [checkRugIndicators, nearestBefore, rugPrior, rugCur, MAX_HISTORICAL_DATA_AGE,
        liqDrainHit, liquidityChangeOf, RUG_LIQUIDITY_DRAIN_CRITERIA, mkRugAlert,
        priceChangeOf, volumeChangeOf]),
    ?_,
    C6_alert_record_mutation.2.2.2.2 [("c", prevRug)] "c"
      (mkRugAlert rugPrior rugCur "LIQUIDITY_DRAIN")⟩
  have h := C6_alert_record_mutation.2.2.2.1 [rugPrior] [] 65 rugCurAttrs "eth" true
    (mkRugAlert rugPrior rugCur "LIQUIDITY_DRAIN") (by
      norm_num [rugSnapshot, rugCurAttrs, rugPrior, rugCur, checkRugIndicators, nearestBefore,
        MAX_HISTORICAL_DATA_AGE, liqDrainHit, liquidityChangeOf, RUG_LIQUIDITY_DRAIN_CRITERIA,
        mkRugAlert, priceChangeOf, volumeChangeOf])
  rcases h with h | h
  · exfalso
    have hd : (rugPoolScan [rugPrior] [] 65 rugCurAttrs "eth" true).dispatched ≠ none := by
      norm_num [rugPoolScan, rugCurAttrs, rugSnapshot, rugPrior, rugCur, checkRugIndicators,
        nearestBefore, MAX_HISTORICAL_DATA_AGE, liqDrainHit, liquidityChangeOf,
        RUG_LIQUIDITY_DRAIN_CRITERIA, mkRugAlert, rugSetNetwork, priceChangeOf,
        volumeChangeOf, setKey, List.lookup]
      simp
    exact hd h
  · have hc : rugCurAttrs.contract = "c" := rfl
    rw [hc] at h
    exact h

/-! Claim C7. -/

/-- C7 (counterexample): in the rug scan the cooldown gate runs before the
snapshot append, so a pool whose contract is within the cooldown window is
skipped entirely — its snapshot is NOT appended, contradicting the claim
that an in-cooldown pool still has its snapshot appended. -/
theorem C7_counterexample :
    List.lookup "c" [("c", prevRug)] = some prevRug ∧
    (65 : ℚ) - prevRug.timestamp < rug_cooldown ∧
    (rugPoolScan [rugPrior] [("c", prevRug)] 65 rugCurAttrs "eth" true).history = [rugPrior] ∧
    (rugPoolScan [rugPrior] [("c", prevRug)] 65 rugCurAttrs "eth" true).history ≠
      [rugPrior] ++ [rugSnapshot 65 rugCurAttrs] := by
  norm_num [rugPoolScan, rugCurAttrs, rugSnapshot, rugPrior, prevRug, rug_cooldown,
    List.lookup]

/-- C7 (amended): in the moonshot scan every processed pool has its
snapshot appended before the cooldown gate (so in-cooldown pools still get
snapshots), while in the rug scan the cooldown gate precedes the append —
an in-cooldown pool is skipped entirely (no append, no record, no
dispatch); a rug-scan pool whose contract is not in cooldown does get its
snapshot appended. In both scans the gate also skips classifier evaluation
and alert construction/dispatch. -/
theorem C7_snapshot_append_vs_cooldown :
    (∀ (hist : List PoolRecord) (det : List (String × MoonshotAlert)) (now : ℚ)
        (p : PoolAttrs) (net : String) (ok : Bool),
      (moonshotPoolScan hist det now p net ok).history = hist ++ [moonshotSnapshot now p]) ∧
    (∀ (hist : List PoolRecord) (det : List (String × RugAlert)) (now : ℚ)
        (p : PoolAttrs) (net : String) (ok : Bool) (prev : RugAlert),
      List.lookup p.contract det = some prev → now - prev.timestamp < rug_cooldown →
      (rugPoolScan hist det now p net ok).history = hist ∧
      (rugPoolScan hist det now p net ok).detected = det ∧
      (rugPoolScan hist det now p net ok).dispatched = none ∧
      (rugPoolScan hist det now p net ok).events = []) ∧
    (∀ (hist : List PoolRecord) (det : List (String × RugAlert)) (now : ℚ)
        (p : PoolAttrs) (net : String) (ok : Bool),
      (List.lookup p.contract det = none ∨
        ∃ prev, List.lookup p.contract det = some prev ∧ rug_cooldown ≤ now - prev.timestamp) →
      (rugPoolScan hist det now p net ok).history = hist ++ [rugSnapshot now p]) := by
  refine ⟨?_, ?_, ?_⟩
  · intro hist det now p net ok
    simp only [moonshotPoolScan]
    split
    · rfl
    · split <;> rfl
  · intro hist det now p net ok prev hlk hcd
    simp [rugPoolScan, hlk, hcd]
  · intro hist det now p net ok hcase
    rcases hcase with hlk | ⟨prev, hlk, hcd⟩
    · simp only [rugPoolScan, hlk]
      rw [if_neg (by simp)]
      split <;> rfl
    · have hc : ¬ (now - prev.timestamp < rug_cooldown) := not_lt.mpr hcd
      simp only [rugPoolScan, hlk]
      rw [if_neg (by simpa using hc)]
      split <;> rfl

/-- C7 witness: at t = 65 with contract "c" in cooldown, the rug scan
leaves the history untouched and dispatches nothing, while the moonshot
scan still appends; out of cooldown (empty map) the rug scan appends. -/
theorem C7_snapshot_append_vs_cooldown_witness :
    (moonshotPoolScan [] [("c", prevMoonshot)] 10 poolQ "eth" true).history =
      [moonshotSnapshot 10 poolQ] ∧
    (rugPoolScan [rugPrior] [("c", prevRug)] 65 rugCurAttrs "eth" true).history = [rugPrior] ∧
    (rugPoolScan [rugPrior] [("c", prevRug)] 65 rugCurAttrs "eth" true).dispatched = none ∧
    (rugPoolScan [rugPrior] [] 65 rugCurAttrs "eth" true).history =
      [rugPrior] ++ [rugSnapshot 65 rugCurAttrs] := by
  have h2 := C7_snapshot_append_vs_cooldown.2.1 [rugPrior] [("c", prevRug)] 65 rugCurAttrs
    "eth" true prevRug (by norm_num [List.lookup, rugCurAttrs]) (by
      norm_num [prevRug, rug_cooldown])
  exact ⟨C7_snapshot_append_vs_cooldown.1 [] [("c", prevMoonshot)] 10 poolQ "eth" true,
    h2.1, h2.2.2.1,
    C7_snapshot_append_vs_cooldown.2.2 [rugPrior] [] 65 rugCurAttrs "eth" true
      (Or.inl (by norm_num [List.lookup]))⟩

/-! Claim C4. -/

/-- C4: the rate limiter can exceed its budget. With max_calls = 1 and a
60-second window, acquires entering the (lock-serialized) body at t = 0, 0,
60 complete at t = 0, 60, 60: the second acquire sleeps until its
predecessor's timestamp is exactly one window old, and the third acquire
then computes a zero wait (the oldest timestamp is exactly window-aged),
skips both the sleep and any capacity re-check, and records a call while
the deque already holds one in-window timestamp — the rolling window
(0, 60] sees two completions with max_calls = 1. -/
theorem C4_rate_limiter_window_overflow :
    (rlRun 1 60 [0, 0, 60]).2 = [0, 60, 60] ∧
    (rlRun 1 60 [0, 0, 60]).1 = [0, 60, 60] ∧
    (rlRun 1 60 [0, 0]).1 = [0, 60] ∧
    ((rlRun 1 60 [0, 0]).1.countP (fun t => decide (0 < t ∧ t ≤ 60))) = 1 ∧
    ((rlRun 1 60 [0, 0, 60]).2.countP (fun c => decide (0 < c ∧ c ≤ 60))) = 2 := by
  norm_num [rlRun, rlAcquire, rlPrune, List.dropWhile, List.countP, List.countP.go]
